import Mathlib

/-!
Verification development for the client-side scripts of the
Language-Agnostic college-website repository.

The embedding translates the event handlers of
`src/js/jscript2.js` (chatbot widget, enhanced revision with the
voice-navigation toggle), `src/unnamed/part_000` (hamburger
navigation toggle) and `src/unnamed/part_001` (course modal) into
pure Lean functions over explicit state records.  DOM mutations
become list appends on the state; browser storage cells become
fields of the state; `window.location.href` assignments are logged
in a `redirects` list.
-/

/-- JavaScript-style truthiness of an optional string field of a JSON
response: the field is truthy exactly when it is present and non-empty. -/
def jsTruthy : Option String → Bool
  | none => false
  | some s => s != ""

/-- Model of JavaScript `String.prototype.trim`: drop whitespace
characters from both ends. -/
def jsTrim (s : String) : String :=
  String.mk (((s.data.dropWhile Char.isWhitespace).reverse.dropWhile
    Char.isWhitespace).reverse)

/-- Model of JavaScript `String.prototype.toLowerCase`, character by
character (the queries and keywords involved are ASCII). -/
def jsToLower (s : String) : String :=
  String.mk (s.data.map Char.toLower)

/-- Substring test on character lists, mirroring JavaScript
`String.prototype.includes`. -/
def containsSub (sub : List Char) : List Char → Bool
  | [] => sub.isEmpty
  | c :: rest => sub.isPrefixOf (c :: rest) || containsSub sub rest

/-- JavaScript `s.includes(pat)`. -/
def strIncludes (s pat : String) : Bool :=
  containsSub pat.data s.data

/-- Replace the first occurrence of a (non-empty) pattern, mirroring
JavaScript `String.prototype.replace` with a string pattern. -/
def replaceFirstAux (pat repl : List Char) : List Char → List Char
  | [] => []
  | c :: rest =>
    if pat.isPrefixOf (c :: rest) then repl ++ (c :: rest).drop pat.length
    else c :: replaceFirstAux pat repl rest

/-- JavaScript `s.replace(pat, repl)` for a string pattern. -/
def replaceFirst (s pat repl : String) : String :=
  String.mk (replaceFirstAux pat.data repl.data s.data)

/-- A chat message, as stored in `sessionStorage["chatHistory"]` and as
rendered into a `chat-message` div.  The JS field `from` is a Lean
keyword, so it is called `sender` here. -/
structure Msg where
  text : String
  sender : String
deriving DecidableEq, Repr

/-- JSON response of the `/ask_bot/` endpoint (jscript2.js line 217). -/
structure BotResponse where
  answer : Option String
  error : Option String
  audio_file : Option String
  redirect : Option String
deriving DecidableEq, Repr

/-- Observable state of the chatbot conversation: the `chat-message`
divs in the chat container, the stored history, the input field, the
queries POSTed to `/ask_bot/`, the navigations performed, the stored
open flag, the toasts shown and the audio files played. -/
structure ChatState where
  bubbles : List Msg
  history : List Msg
  inputValue : String
  requests : List String
  redirects : List String
  chatbotOpen : Bool
  toasts : List String
  audioPlays : List String
deriving DecidableEq, Repr

/-- `appendMessage` (jscript2.js lines 185-196): append one
`chat-message` div and push the same record onto the stored history. -/
def appendMessage (text sender : String) (s : ChatState) : ChatState :=
  { s with
    bubbles := s.bubbles ++ [⟨text, sender⟩]
    history := s.history ++ [⟨text, sender⟩] }

/-- `navigatePreservePopup` (jscript2.js lines 116-120): no-op on a
falsy url, otherwise record the open flag and navigate. -/
def navigatePreservePopup (url : String) (s : ChatState) : ChatState :=
  if url = "" then s
  else { s with chatbotOpen := true, redirects := s.redirects ++ [url] }

/-- `showToast` (jscript2.js lines 98-111), reduced to its observable
effect: one toast message shown. -/
def showToast (msg : String) (s : ChatState) : ChatState :=
  { s with toasts := s.toasts ++ [msg] }

/-- Audio playback block of `sendQuery` (jscript2.js lines 257-264). -/
def playAudioFile (data : BotResponse) (s : ChatState) : ChatState :=
  if jsTruthy data.audio_file then
    { s with audioPlays :=
        s.audioPlays ++ ["/download_audio/" ++ data.audio_file.getD ""] }
  else s

/-- The keyword fallback table of `sendQuery` (jscript2.js lines
231-240), in its fixed declaration order; `for (const key in keywords)`
iterates string keys in exactly this insertion order. -/
def keywords : List (String × String) :=
  [("mba", "mba.html"),
   ("mca", "mca.html"),
   ("bba", "bba.html"),
   ("bca", "bca.html"),
   ("ma", "ma.html"),
   ("ba", "ba.html"),
   ("scholarship", "index4.html"),
   ("courses", "index3.html")]

/-- The keyword loop of `sendQuery` (jscript2.js lines 244-251): first
key (in declaration order) contained in the lowercased query wins and
yields the target `"/" + page.replace(".html", "")`. -/
def firstMatch (qLower : String) : List (String × String) → Option String
  | [] => none
  | (key, page) :: rest =>
    if strIncludes qLower key then
      some ("/" ++ replaceFirst page ".html" "")
    else firstMatch qLower rest

/-- Target of the keyword fallback for a lowercased query. -/
def keywordTarget (qLower : String) : Option String :=
  firstMatch qLower keywords

/-- `sendQuery` (jscript2.js lines 198-275), successful-fetch path:
the response `data` of the POST to `/ask_bot/` is a parameter, and
`voiceOn` is the checked state of the voice-navigation toggle. -/
def sendQuery (voiceOn : Bool) (data : BotResponse) (s : ChatState) :
    ChatState :=
  let query := jsTrim s.inputValue
  if query = "" then s
  else
    let s1 := appendMessage query "user" s
    let s2 := { s1 with inputValue := "", requests := s1.requests ++ [query] }
    if jsTruthy data.answer then
      let s3 := appendMessage (data.answer.getD "") "bot" s2
      if jsTruthy data.redirect && voiceOn then
        navigatePreservePopup (data.redirect.getD "") s3
      else if voiceOn then
        match keywordTarget (jsToLower query) with
        | some target => navigatePreservePopup target s3
        | none => playAudioFile data s3
      else
        playAudioFile data
          (showToast "Redirect skipped — Voice Navigation is OFF" s3)
    else if jsTruthy data.error then
      appendMessage ("Error: " ++ data.error.getD "") "bot" s2
    else
      appendMessage "No answer received." "bot" s2

/-- History-restore loop on popup creation (jscript2.js lines 175-181):
each stored record becomes one `chat-message` div with the record's
text and sender class. -/
def renderHistory (history : List Msg) : List Msg :=
  history.map (fun m => ⟨m.text, m.sender⟩)

/-- A sequence of `appendMessage` calls, in order. -/
def appendMessages (msgs : List Msg) (s : ChatState) : ChatState :=
  msgs.foldl (fun st m => appendMessage m.text m.sender st) s

/-- Reload-time history clear (jscript2.js lines 5-10). -/
def clearChatHistory (s : ChatState) : ChatState :=
  { s with history := [], chatbotOpen := false }

/-- State touched by the hamburger click handler
(`src/unnamed/part_000` lines 4-8): the `aria-expanded` attribute (a
DOM attribute, hence a string) and membership of the `show` class in
the nav menu's class list. -/
structure NavState where
  ariaExpanded : String
  navShow : Bool
deriving DecidableEq, Repr

/-- The hamburger click handler: read `aria-expanded`, compare it to
the string `"true"`, store the stringified negation, and toggle the
`show` class. -/
def hamburgerClick (s : NavState) : NavState :=
  { ariaExpanded := toString (!(s.ariaExpanded == "true"))
    navShow := !s.navShow }

/-- One record of the static course table (`src/unnamed/part_001`
lines 12-55). -/
structure CourseInfo where
  description : String
  eligibility : String
  duration : String
  adm : String
  fees : String
deriving DecidableEq, Repr

/-- `courseDetails` (`src/unnamed/part_001` lines 12-55): lookup by
course code in the static object. -/
def courseDetails (name : String) : Option CourseInfo :=
  if name = "MBA" then some
    { description := "Master of Business Administration (General)"
      eligibility := "Bachelors (Recognized)"
      duration := "2 years"
      adm := "Apply through university entrance exam or merit-based selection."
      fees := "Approx. $15,000 per year" }
  else if name = "BBA" then some
    { description := "Bachelor of Business Administration (General)"
      eligibility := "+2 (Recognized)"
      duration := "3 years"
      adm := "Admission based on 10+2 marks or entrance test."
      fees := "Approx. $8,000 per year" }
  else if name = "MCA" then some
    { description := "Master of Computer Application"
      eligibility := "Bachelors (Recognized)"
      duration := "2 years"
      adm := "Through entrance exam and academic merit."
      fees := "Approx. $12,000 per year" }
  else if name = "BCA" then some
    { description := "Bachelor of Computer Application"
      eligibility := "+2 (Recognized)"
      duration := "3 years"
      adm := "Based on 10+2 academic qualification or entrance exam."
      fees := "Approx. $7,000 per year" }
  else if name = "MA" then some
    { description := "Master of Arts (English): Bachelor’s degree in English or related discipline. Minimum 50% aggregate marks (45% for SC/ST)."
      eligibility := "Bachelor’s degree in English or related discipline. Minimum 50% aggregate marks (45% for SC/ST)."
      duration := "2 years (4 Semesters)"
      adm := "Apply for CUCET (Chandigarh University Common Entrance Test). Selection based on CUCET score / merit. Scholarships available on CUCET score, academic merit, sports, NCC, defense quota."
      fees := "Per Year Fee: ~₹70,000 – ₹85,000 Total (2 Years): ~₹1.4 – ₹1.7 lakh Exam Fee: ₹2,500 per year Security Deposit: ₹2,000" }
  else if name = "BA" then some
    { description := "Bachelor of Arts (English)"
      eligibility := "Bachelors (Recognized)"
      duration := "3 years"
      adm := "Admission based on 10+2 marks or merit."
      fees := "Approx. $6,000 per year" }
  else none

/-- DOM nodes written by `showModal`: the six text fields and the
modal's `display` style. -/
structure ModalState where
  title : String
  desc : String
  elig : String
  duration : String
  adm : String
  fees : String
  display : String
deriving DecidableEq, Repr

/-- JavaScript `x || "N/A"` on a string field. -/
def orNA (s : String) : String :=
  if s = "" then "N/A" else s

/-- `showModal` (`src/unnamed/part_001` lines 58-70): silently no-op
on an unknown course name; otherwise write the six fields and reveal
the modal. -/
def showModal (courseName : String) (m : ModalState) : ModalState :=
  match courseDetails courseName with
  | none => m
  | some details =>
    { title := courseName
      desc := orNA details.description
      elig := orNA details.eligibility
      duration := orNA details.duration
      adm := orNA details.adm
      fees := orNA details.fees
      display := "block" }

/-- State of the popup lifecycle (jscript2.js lines 95, 122-144,
427-443): the `popupLoaded` closure flag, whether `#chatbotPopup` is
attached to `document.body`, whether its display style is `flex`, and
the stored `chatbotOpen` flag. -/
structure WidgetState where
  popupLoaded : Bool
  attached : Bool
  visible : Bool
  chatbotOpen : Bool
deriving DecidableEq, Repr

/-- The chatbot-button click handler (jscript2.js lines 122-144 and
427-443).  `fetchOk` is true when the popup HTML fetch succeeds with a
success status and the fetched markup contains `#chatbotPopup`; on
failure the catch handler only logs and shows a toast. -/
def clickChatbot (fetchOk : Bool) (w : WidgetState) : WidgetState :=
  if w.popupLoaded = false then
    if fetchOk then
      { popupLoaded := true, attached := true, visible := true,
        chatbotOpen := true }
    else w
  else if w.attached then
    { w with visible := true, chatbotOpen := true }
  else w

/-- The close actions (close button, jscript2.js lines 392-396, and
outside click, lines 398-403): hide the popup and store the closed
flag. -/
def closePopup (w : WidgetState) : WidgetState :=
  { w with visible := false, chatbotOpen := false }

/-- Popup state `unloaded` of the spec's three-state machine. -/
def unloadedS (w : WidgetState) : Prop :=
  w.popupLoaded = false ∧ w.attached = false

/-- Popup state `loaded-hidden` of the spec's three-state machine. -/
def loadedHiddenS (w : WidgetState) : Prop :=
  w.popupLoaded = true ∧ w.attached = true ∧ w.visible = false

/-- Popup state `loaded-visible` of the spec's three-state machine. -/
def loadedVisibleS (w : WidgetState) : Prop :=
  w.popupLoaded = true ∧ w.attached = true ∧ w.visible = true

section HelperLemmas

@[simp]
lemma appendMessage_bubbles (text sender : String) (s : ChatState) :
    (appendMessage text sender s).bubbles = s.bubbles ++ [⟨text, sender⟩] :=
  rfl

@[simp]
lemma appendMessage_history (text sender : String) (s : ChatState) :
    (appendMessage text sender s).history = s.history ++ [⟨text, sender⟩] :=
  rfl

@[simp]
lemma appendMessage_redirects (text sender : String) (s : ChatState) :
    (appendMessage text sender s).redirects = s.redirects :=
  rfl

@[simp]
lemma appendMessage_inputValue (text sender : String) (s : ChatState) :
    (appendMessage text sender s).inputValue = s.inputValue :=
  rfl

@[simp]
lemma appendMessage_requests (text sender : String) (s : ChatState) :
    (appendMessage text sender s).requests = s.requests :=
  rfl

@[simp]
lemma navigatePreservePopup_bubbles (url : String) (s : ChatState) :
    (navigatePreservePopup url s).bubbles = s.bubbles := by
  unfold navigatePreservePopup
  split <;> rfl

@[simp]
lemma navigatePreservePopup_history (url : String) (s : ChatState) :
    (navigatePreservePopup url s).history = s.history := by
  unfold navigatePreservePopup
  split <;> rfl

lemma navigatePreservePopup_redirects_of_ne (url : String) (s : ChatState)
    (h : url ≠ "") :
    (navigatePreservePopup url s).redirects = s.redirects ++ [url] := by
  unfold navigatePreservePopup
  rw [if_neg h]

@[simp]
lemma playAudioFile_bubbles (d : BotResponse) (s : ChatState) :
    (playAudioFile d s).bubbles = s.bubbles := by
  unfold playAudioFile
  split <;> rfl

@[simp]
lemma playAudioFile_history (d : BotResponse) (s : ChatState) :
    (playAudioFile d s).history = s.history := by
  unfold playAudioFile
  split <;> rfl

@[simp]
lemma playAudioFile_redirects (d : BotResponse) (s : ChatState) :
    (playAudioFile d s).redirects = s.redirects := by
  unfold playAudioFile
  split <;> rfl

@[simp]
lemma showToast_bubbles (msg : String) (s : ChatState) :
    (showToast msg s).bubbles = s.bubbles :=
  rfl

@[simp]
lemma showToast_history (msg : String) (s : ChatState) :
    (showToast msg s).history = s.history :=
  rfl

@[simp]
lemma showToast_redirects (msg : String) (s : ChatState) :
    (showToast msg s).redirects = s.redirects :=
  rfl

lemma jsTruthy_getD_ne (o : Option String) (h : jsTruthy o = true) :
    o.getD "" ≠ "" := by
  cases o with
  | none => simp [jsTruthy] at h
  | some s =>
    simp only [jsTruthy, bne_iff_ne, ne_eq] at h
    simpa using h

lemma keywordTarget_of_none (q : String) (t : String)
    (h : keywordTarget q = some t) : t ≠ "" := by
  simp only [keywordTarget, keywords, firstMatch] at h
  split_ifs at h <;> (injection h with h; subst h; decide)

lemma keywordTarget_empty : keywordTarget "" = none := by decide

lemma dropWhile_eq_nil_of_all {α : Type} (p : α → Bool) :
    ∀ l : List α, l.all p = true → l.dropWhile p = []
  | [], _ => rfl
  | a :: t, h => by
    simp only [List.all_cons, Bool.and_eq_true] at h
    simp [List.dropWhile_cons, h.1, dropWhile_eq_nil_of_all p t h.2]

lemma jsTrim_of_whitespace (s : String)
    (h : s.data.all Char.isWhitespace = true) : jsTrim s = "" := by
  unfold jsTrim
  rw [dropWhile_eq_nil_of_all _ _ h]
  rfl

lemma jsTrim_ne_of_keywordTarget (q t : String)
    (hk : keywordTarget (jsToLower q) = some t) : ¬ q = "" := by
  intro h0
  rw [h0] at hk
  rw [show jsToLower "" = "" from rfl, keywordTarget_empty] at hk
  exact Option.noConfusion hk

lemma sendQuery_of_empty (v : Bool) (d : BotResponse) (s : ChatState)
    (hq : jsTrim s.inputValue = "") : sendQuery v d s = s := by
  unfold sendQuery
  simp [hq]

lemma sendQuery_error_eq (v : Bool) (d : BotResponse) (s : ChatState)
    (hq : ¬ jsTrim s.inputValue = "")
    (ha : jsTruthy d.answer = false) (he : jsTruthy d.error = true) :
    sendQuery v d s =
      appendMessage ("Error: " ++ d.error.getD "") "bot"
        { appendMessage (jsTrim s.inputValue) "user" s with
            inputValue := ""
            requests := s.requests ++ [jsTrim s.inputValue] } := by
  simp only [sendQuery]
  rw [if_neg hq, if_neg (by simp [ha]), if_pos he]
  rfl

lemma sendQuery_noanswer_eq (v : Bool) (d : BotResponse) (s : ChatState)
    (hq : ¬ jsTrim s.inputValue = "")
    (ha : jsTruthy d.answer = false) (he : jsTruthy d.error = false) :
    sendQuery v d s =
      appendMessage "No answer received." "bot"
        { appendMessage (jsTrim s.inputValue) "user" s with
            inputValue := ""
            requests := s.requests ++ [jsTrim s.inputValue] } := by
  simp only [sendQuery]
  rw [if_neg hq, if_neg (by simp [ha]), if_neg (by simp [he])]
  rfl

lemma sendQuery_bubbles_answer (v : Bool) (d : BotResponse) (s : ChatState)
    (hq : ¬ jsTrim s.inputValue = "") (ha : jsTruthy d.answer = true) :
    (sendQuery v d s).bubbles =
      s.bubbles ++ [⟨jsTrim s.inputValue, "user"⟩,
        ⟨d.answer.getD "", "bot"⟩] := by
  simp only [sendQuery]
  rw [if_neg hq, if_pos ha]
  split
  · simp [List.append_assoc]
  split
  · split <;> simp [List.append_assoc]
  · simp [List.append_assoc]

lemma sendQuery_history_answer (v : Bool) (d : BotResponse) (s : ChatState)
    (hq : ¬ jsTrim s.inputValue = "") (ha : jsTruthy d.answer = true) :
    (sendQuery v d s).history =
      s.history ++ [⟨jsTrim s.inputValue, "user"⟩,
        ⟨d.answer.getD "", "bot"⟩] := by
  simp only [sendQuery]
  rw [if_neg hq, if_pos ha]
  split
  · simp [List.append_assoc]
  split
  · split <;> simp [List.append_assoc]
  · simp [List.append_assoc]

lemma sendQuery_redirects_voiceOff (d : BotResponse) (s : ChatState)
    (hq : ¬ jsTrim s.inputValue = "") :
    (sendQuery false d s).redirects = s.redirects := by
  simp only [sendQuery]
  rw [if_neg hq]
  split
  · simp
  split
  · simp
  · simp

lemma sendQuery_redirects_server (d : BotResponse) (s : ChatState)
    (hq : ¬ jsTrim s.inputValue = "")
    (ha : jsTruthy d.answer = true) (hr : jsTruthy d.redirect = true) :
    (sendQuery true d s).redirects =
      s.redirects ++ [d.redirect.getD ""] := by
  simp only [sendQuery]
  rw [if_neg hq, if_pos ha, if_pos (by simp [hr])]
  rw [navigatePreservePopup_redirects_of_ne _ _ (jsTruthy_getD_ne _ hr)]
  simp

lemma sendQuery_redirects_keyword (d : BotResponse) (s : ChatState)
    (target : String) (hq : ¬ jsTrim s.inputValue = "")
    (ha : jsTruthy d.answer = true) (hr : jsTruthy d.redirect = false)
    (hk : keywordTarget (jsToLower (jsTrim s.inputValue)) = some target) :
    (sendQuery true d s).redirects = s.redirects ++ [target] := by
  simp only [sendQuery]
  rw [if_neg hq, if_pos ha, if_neg (by simp [hr])]
  simp only [if_true, hk]
  rw [navigatePreservePopup_redirects_of_ne _ _
    (keywordTarget_of_none _ _ hk)]
  simp

lemma appendMessages_history (msgs : List Msg) :
    ∀ s : ChatState, (appendMessages msgs s).history = s.history ++ msgs := by
  induction msgs with
  | nil => intro s; simp [appendMessages]
  | cons m t ih =>
    intro s
    show (appendMessages t (appendMessage m.text m.sender s)).history =
      s.history ++ (m :: t)
    rw [ih]
    simp [List.append_assoc]

lemma keywordTarget_includes_mba (q : String)
    (h : strIncludes q "mba" = true) : keywordTarget q = some "/mba" := by
  simp only [keywordTarget, keywords, firstMatch, h, eq_self_iff_true,
    if_true]
  decide

end HelperLemmas

example : jsTrim "  mba " = "mba" := by decide

/-- Claim C4: for every key present in the static course table,
`showModal` writes all five fields (description, eligibility,
duration, admission process, fees) from the table's record into the
modal's DOM nodes and reveals the modal; for every name not in the
table it leaves the modal entirely unchanged. -/
theorem c4_show_modal (name : String) (m : ModalState) :
    (∀ d, courseDetails name = some d →
        showModal name m =
          ⟨name, d.description, d.eligibility, d.duration, d.adm, d.fees,
            "block"⟩) ∧
    (courseDetails name = none → showModal name m = m) := by
  constructor
  · intro d hd
    unfold showModal
    rw [hd]
    unfold courseDetails at hd
    split_ifs at hd <;>
      (injection hd with hd; subst hd; simp [orNA])
  · intro h
    unfold showModal
    rw [h]

/-- Witness for C4 at the key "MBA" and a blank modal. -/
theorem c4_show_modal_witness :
    showModal "MBA" ⟨"", "", "", "", "", "", "none"⟩ =
      ⟨"MBA", "Master of Business Administration (General)",
        "Bachelors (Recognized)", "2 years",
        "Apply through university entrance exam or merit-based selection.",
        "Approx. $15,000 per year", "block"⟩ :=
  (c4_show_modal "MBA" ⟨"", "", "", "", "", "", "none"⟩).1
    ⟨"Master of Business Administration (General)",
      "Bachelors (Recognized)", "2 years",
      "Apply through university entrance exam or merit-based selection.",
      "Approx. $15,000 per year"⟩ rfl

/-- Claim C7: the popup lifecycle is the three-state machine
{unloaded, loaded-hidden, loaded-visible}: a first button click with a
successful fetch moves unloaded to loaded-visible; subsequent clicks
and close actions move between the two loaded states; a click whose
fetch fails leaves the state at unloaded with the popup never
attached. -/
theorem c7_popup_lifecycle (w : WidgetState) :
    (unloadedS w → loadedVisibleS (clickChatbot true w)) ∧
    (unloadedS w → clickChatbot false w = w) ∧
    ((loadedHiddenS w ∨ loadedVisibleS w) →
       ∀ ok, loadedVisibleS (clickChatbot ok w)) ∧
    ((loadedHiddenS w ∨ loadedVisibleS w) → loadedHiddenS (closePopup w)) := by
  obtain ⟨pl, att, vis, op⟩ := w
  cases pl <;> cases att <;> cases vis <;> cases op <;>
    simp [unloadedS, loadedHiddenS, loadedVisibleS, clickChatbot, closePopup]

/-- Witness for C7: from the fresh unloaded state, a successful first
click reaches loaded-visible, and a failed first click changes
nothing. -/
theorem c7_popup_lifecycle_witness :
    loadedVisibleS (clickChatbot true ⟨false, false, false, false⟩) ∧
    clickChatbot false ⟨false, false, false, false⟩ =
      ⟨false, false, false, false⟩ :=
  ⟨(c7_popup_lifecycle ⟨false, false, false, false⟩).1 ⟨rfl, rfl⟩,
   (c7_popup_lifecycle ⟨false, false, false, false⟩).2.1 ⟨rfl, rfl⟩⟩

/-- Claim C8 fails as stated: from a starting state whose
`aria-expanded` attribute is neither "true" nor "false" (here "x"),
two clicks end with the attribute "false", not the original value. -/
theorem c8_counterexample :
    hamburgerClick (hamburgerClick ⟨"x", false⟩) ≠
      (⟨"x", false⟩ : NavState) := by
  decide

/-- Claim C8 (amended): two clicks always restore the nav menu's class
list; they restore the `aria-expanded` attribute whenever its starting
value is the string "true" or "false". -/
theorem c8_nav_double_toggle (s : NavState) :
    (hamburgerClick (hamburgerClick s)).navShow = s.navShow ∧
    (s.ariaExpanded = "true" ∨ s.ariaExpanded = "false" →
       hamburgerClick (hamburgerClick s) = s) := by
  obtain ⟨a, b⟩ := s
  constructor
  · simp [hamburgerClick]
  · rintro (h | h) <;> subst h <;> cases b <;> decide

/-- Witness for C8 at a canonical starting state. -/
theorem c8_nav_double_toggle_witness :
    hamburgerClick (hamburgerClick ⟨"false", true⟩) =
      (⟨"false", true⟩ : NavState) :=
  (c8_nav_double_toggle ⟨"false", true⟩).2 (Or.inr rfl)

/-- Claim C5: a send on an input value that is empty or whitespace-only
leaves the whole state unchanged: no chat bubble, no history change, no
network request (and no redirect, toast or audio playback either). -/
theorem c5_empty_query_noop (v : Bool) (d : BotResponse) (s : ChatState)
    (h : s.inputValue.data.all Char.isWhitespace = true) :
    sendQuery v d s = s :=
  sendQuery_of_empty v d s (jsTrim_of_whitespace s.inputValue h)

/-- Witness for C5 on a three-space input. -/
theorem c5_empty_query_noop_witness :
    sendQuery false ⟨some "A", none, none, none⟩
        ⟨[], [], "   ", [], [], false, [], []⟩ =
      ⟨[], [], "   ", [], [], false, [], []⟩ :=
  c5_empty_query_noop false ⟨some "A", none, none, none⟩
    ⟨[], [], "   ", [], [], false, [], []⟩ (by decide)

/-- Claim C3: appending a sequence of messages and then replaying the
stored history on popup (re)creation reproduces exactly those messages,
in order, with their sender attributions. -/
theorem c3_history_replay (msgs : List Msg) (s : ChatState)
    (h : s.history = []) :
    renderHistory (appendMessages msgs s).history = msgs := by
  rw [appendMessages_history, h, List.nil_append]
  induction msgs with
  | nil => rfl
  | cons m t ih =>
    show (⟨m.text, m.sender⟩ : Msg) :: renderHistory t = m :: t
    rw [ih]

/-- Witness for C3 on a two-message conversation. -/
theorem c3_history_replay_witness :
    renderHistory
        (appendMessages [⟨"hello", "user"⟩, ⟨"hi there", "bot"⟩]
          ⟨[], [], "", [], [], false, [], []⟩).history =
      [⟨"hello", "user"⟩, ⟨"hi there", "bot"⟩] :=
  c3_history_replay [⟨"hello", "user"⟩, ⟨"hi there", "bot"⟩]
    ⟨[], [], "", [], [], false, [], []⟩ rfl

/-- Claim C9: every record persisted to the history has shape
{text, sender} with sender "user" or "bot"; each append adds exactly
one record at the end, a whole send only ever appends records, and
nothing removes records short of the full history clear. -/
theorem c9_history_append_only (text sender : String) (v : Bool)
    (d : BotResponse) (s : ChatState) :
    (appendMessage text sender s).history = s.history ++ [⟨text, sender⟩] ∧
    (∃ suffix, (sendQuery v d s).history = s.history ++ suffix ∧
       ∀ m ∈ suffix, m.sender = "user" ∨ m.sender = "bot") ∧
    (clearChatHistory s).history = [] := by
  refine ⟨rfl, ?_, rfl⟩
  by_cases hq : jsTrim s.inputValue = ""
  · exact ⟨[], by simp [sendQuery_of_empty v d s hq], by simp⟩
  · by_cases ha : jsTruthy d.answer = true
    · exact ⟨[⟨jsTrim s.inputValue, "user"⟩, ⟨d.answer.getD "", "bot"⟩],
        sendQuery_history_answer v d s hq ha, by simp⟩
    · rw [Bool.not_eq_true] at ha
      by_cases he : jsTruthy d.error = true
      · refine ⟨[⟨jsTrim s.inputValue, "user"⟩,
          ⟨"Error: " ++ d.error.getD "", "bot"⟩], ?_, by simp⟩
        rw [sendQuery_error_eq v d s hq ha he]
        simp [List.append_assoc]
      · rw [Bool.not_eq_true] at he
        refine ⟨[⟨jsTrim s.inputValue, "user"⟩,
          ⟨"No answer received.", "bot"⟩], ?_, by simp⟩
        rw [sendQuery_noanswer_eq v d s hq ha he]
        simp [List.append_assoc]

/-- Claim C2 fails as stated: a response with no answer and a present
but empty error field yields the "No answer received." bubble, not an
error-prefixed bubble. -/
theorem c2_counterexample :
    (sendQuery false ⟨none, some "", none, none⟩
        ⟨[], [], "hi", [], [], false, [], []⟩).bubbles =
      [⟨"hi", "user"⟩, ⟨"No answer received.", "bot"⟩] ∧
    ("No answer received." : String) ≠ "Error: " := by
  decide

/-- Claim C2 (amended): with a non-empty trimmed query, a response with
a non-empty answer "X" and no error yields exactly one new bot bubble
"X"; a response with no answer and a NON-EMPTY error "Y" yields exactly
one bot bubble "Error: Y"; a response with neither a non-empty answer
nor a non-empty error yields the fixed "No answer received." bubble. -/
theorem c2_response_bubbles (v : Bool) (d : BotResponse) (s : ChatState)
    (hq : jsTrim s.inputValue ≠ "") :
    (∀ X, d.answer = some X → X ≠ "" → d.error = none →
       (sendQuery v d s).bubbles =
         s.bubbles ++ [⟨jsTrim s.inputValue, "user"⟩, ⟨X, "bot"⟩]) ∧
    (∀ Y, d.answer = none → d.error = some Y → Y ≠ "" →
       (sendQuery v d s).bubbles =
         s.bubbles ++ [⟨jsTrim s.inputValue, "user"⟩,
           ⟨"Error: " ++ Y, "bot"⟩]) ∧
    (jsTruthy d.answer = false → jsTruthy d.error = false →
       (sendQuery v d s).bubbles =
         s.bubbles ++ [⟨jsTrim s.inputValue, "user"⟩,
           ⟨"No answer received.", "bot"⟩]) := by
  refine ⟨?_, ?_, ?_⟩
  · intro X hX hXne _
    have ha : jsTruthy d.answer = true := by
      rw [hX]
      simpa [jsTruthy] using hXne
    have hb := sendQuery_bubbles_answer v d s hq ha
    rw [hX] at hb
    simpa using hb
  · intro Y hA hY hYne
    have ha : jsTruthy d.answer = false := by rw [hA]; rfl
    have he : jsTruthy d.error = true := by
      rw [hY]
      simpa [jsTruthy] using hYne
    rw [sendQuery_error_eq v d s hq ha he]
    simp [hY, List.append_assoc]
  · intro ha he
    rw [sendQuery_noanswer_eq v d s hq ha he]
    simp [List.append_assoc]

/-- Witness for C2 (amended), first case: answer "A" on query "hi". -/
theorem c2_response_bubbles_witness :
    (sendQuery false ⟨some "A", none, none, none⟩
        ⟨[], [], "hi", [], [], false, [], []⟩).bubbles =
      [⟨"hi", "user"⟩, ⟨"A", "bot"⟩] := by
  have h := (c2_response_bubbles false ⟨some "A", none, none, none⟩
      ⟨[], [], "hi", [], [], false, [], []⟩ (by decide)).1 "A" rfl
      (by decide) rfl
  exact h.trans (by decide)

/-- Claim C1 fails as stated: for a query containing the keyword "mba"
and a response carrying an answer AND a server redirect, voice
navigation enabled, the single redirect goes to the server-supplied
path, not to the path mapped to the matched keyword. -/
theorem c1_counterexample :
    (sendQuery true ⟨some "ok", none, none, some "/elsewhere"⟩
        ⟨[], [], "mba", [], [], false, [], []⟩).redirects =
      ["/elsewhere"] ∧
    keywordTarget (jsToLower (jsTrim "mba")) = some "/mba" ∧
    ("/elsewhere" : String) ≠ "/mba" := by
  decide

/-- Claim C1 (amended): for a query whose trimmed text contains a
keyword (mapped target `target`) and a response carrying an answer:
with voice navigation disabled no redirect happens; with it enabled and
no (truthy) server redirect in the response, exactly one redirect
happens, to the mapped target. -/
theorem c1_keyword_redirect_gating (d : BotResponse) (s : ChatState)
    (target : String) (ha : jsTruthy d.answer = true)
    (hk : keywordTarget (jsToLower (jsTrim s.inputValue)) = some target) :
    (sendQuery false d s).redirects = s.redirects ∧
    (jsTruthy d.redirect = false →
       (sendQuery true d s).redirects = s.redirects ++ [target]) := by
  have hq : ¬ jsTrim s.inputValue = "" :=
    jsTrim_ne_of_keywordTarget (jsTrim s.inputValue) target hk
  exact ⟨sendQuery_redirects_voiceOff d s hq,
    fun hr => sendQuery_redirects_keyword d s target hq ha hr hk⟩

/-- Witness for C1 (amended): query "mba", answer-only response, voice
navigation enabled, yields the single redirect "/mba". -/
theorem c1_keyword_redirect_gating_witness :
    (sendQuery true ⟨some "ok", none, none, none⟩
        ⟨[], [], "mba", [], [], false, [], []⟩).redirects = ["/mba"] := by
  have h := (c1_keyword_redirect_gating ⟨some "ok", none, none, none⟩
      ⟨[], [], "mba", [], [], false, [], []⟩ "/mba" (by decide)
      (by decide)).2 rfl
  exact h.trans (by decide)

/-- Claim C6: when a response carries both an answer and a non-empty
server redirect, the query text matches a client-side keyword, and
voice navigation is enabled, the redirect taken is the server-supplied
one. -/
theorem c6_server_redirect_precedence (d : BotResponse) (s : ChatState)
    (r target : String) (ha : jsTruthy d.answer = true)
    (hr : d.redirect = some r) (hrne : r ≠ "")
    (hk : keywordTarget (jsToLower (jsTrim s.inputValue)) = some target) :
    (sendQuery true d s).redirects = s.redirects ++ [r] := by
  have hq : ¬ jsTrim s.inputValue = "" :=
    jsTrim_ne_of_keywordTarget (jsTrim s.inputValue) target hk
  have htr : jsTruthy d.redirect = true := by
    rw [hr]
    simpa [jsTruthy] using hrne
  have h := sendQuery_redirects_server d s hq ha htr
  rw [h, hr]
  simp

/-- Witness for C6: server redirect "/override" wins over the "mba"
keyword. -/
theorem c6_server_redirect_precedence_witness :
    (sendQuery true ⟨some "ok", none, none, some "/override"⟩
        ⟨[], [], "mba", [], [], false, [], []⟩).redirects =
      ["/override"] := by
  have h := c6_server_redirect_precedence
      ⟨some "ok", none, none, some "/override"⟩
      ⟨[], [], "mba", [], [], false, [], []⟩ "/override" "/mba"
      (by decide) rfl (by decide) (by decide)
  exact h.trans (by decide)

/-- Claim C10: the keyword fallback takes the first matching key in the
table's declaration order, so a query containing "mba" (with voice
navigation on, an answer, and no server redirect) redirects to "/mba"
and never to "/ba". -/
theorem c10_first_match_order (d : BotResponse) (s : ChatState)
    (ha : jsTruthy d.answer = true) (hr : jsTruthy d.redirect = false)
    (hmba : strIncludes (jsToLower (jsTrim s.inputValue)) "mba" = true) :
    (sendQuery true d s).redirects = s.redirects ++ ["/mba"] ∧
    ("/mba" : String) ≠ "/ba" := by
  have hk := keywordTarget_includes_mba _ hmba
  have hq : ¬ jsTrim s.inputValue = "" :=
    jsTrim_ne_of_keywordTarget (jsTrim s.inputValue) "/mba" hk
  exact ⟨sendQuery_redirects_keyword d s "/mba" hq ha hr hk, by decide⟩

/-- Witness for C10: the query " Tell me about MBA " redirects to
"/mba". -/
theorem c10_first_match_order_witness :
    (sendQuery true ⟨some "ok", none, none, none⟩
        ⟨[], [], " Tell me about MBA ", [], [], false, [], []⟩).redirects =
      ["/mba"] := by
  have h := (c10_first_match_order ⟨some "ok", none, none, none⟩
      ⟨[], [], " Tell me about MBA ", [], [], false, [], []⟩ (by decide)
      rfl (by decide)).1
  exact h.trans (by decide)
example : keywordTarget "mba" = some "/mba" := by decide
example : keywordTarget "tell me about scholarship" = some "/index4" := by
  decide
example :
    (sendQuery true ⟨some "ok", none, none, none⟩
      ⟨[], [], " mba ", [], [], false, [], []⟩).redirects = ["/mba"] := by
  decide
